import Mathlib

/-!
Verification of the PC-builder recommendation engine (`engine.py`).

The engine is shallowly embedded:
* Python dicts of component data become structures with `Option` fields
  (`None` / missing key ↦ `none`).
* Python integers become `ℤ`.  Every budget fraction in the source's
  allocation tables is a whole number of percent (`0.35`, `0.22`, ...), so the
  tables store integer percents and `int(budget * fraction)` is embedded as
  exact truncated division `Int.tdiv (budget * pct) 100`; likewise the `1.2`
  headroom multiplier is the exact rational `6/5`, embedded via
  `Int.tdiv (_ * 6) 5`.  (`Int.tdiv` rounds toward zero, exactly like
  Python's `int(...)` conversion.)
* Scores that the source mixes into float arithmetic (value scores, the
  build's average performance score) are embedded as exact rationals `ℚ`.
* The MongoDB collection is abstracted as a function `Query → List Component`
  standing for the engine's `find(query).sort(...).limit(10)` call;
  assumptions on the catalog are explicit hypotheses on that function.
* Python's builtin `min`/`max` with a key function become `pyMinBy`/`pyMaxBy`,
  which keep the first-encountered extremum exactly as the builtins do.
* String helpers (`lower`, `upper`, `split`, the `in` substring test) are
  implemented over the character list of the string, matching Python's
  behaviour on the ASCII data the engine handles.
-/

/-- ASCII lower-casing of one character (Python `str.lower` on ASCII data). -/
def lowerChar (c : Char) : Char :=
  if 65 ≤ c.toNat ∧ c.toNat ≤ 90 then Char.ofNat (c.toNat + 32) else c

/-- ASCII upper-casing of one character (Python `str.upper` on ASCII data). -/
def upperChar (c : Char) : Char :=
  if 97 ≤ c.toNat ∧ c.toNat ≤ 122 then Char.ofNat (c.toNat - 32) else c

/-- Python `s.lower()` on ASCII strings. -/
def strLower (s : String) : String := ⟨s.data.map lowerChar⟩

/-- Python `s.upper()` on ASCII strings. -/
def strUpper (s : String) : String := ⟨s.data.map upperChar⟩

/-- Does `hay` start with `needle` (on character lists)? -/
def charsStartWith : List Char → List Char → Bool
  | _, [] => true
  | [], _ :: _ => false
  | c :: cs, d :: ds => c == d && charsStartWith cs ds

/-- Substring occurrence test on character lists. -/
def charsContain : List Char → List Char → Bool
  | [], needle => needle.isEmpty
  | h :: t, needle => charsStartWith (h :: t) needle || charsContain t needle

/-- Python's `needle in hay` substring test on strings. -/
def strContains (hay needle : String) : Bool :=
  charsContain hay.data needle.data

/-- Helper of `splitOnSep`: accumulates the current fragment in reverse. -/
def splitOnCharAux (sep : Char) : List Char → List Char → List String
  | [], acc => [⟨acc.reverse⟩]
  | c :: rest, acc =>
      if c == sep then ⟨acc.reverse⟩ :: splitOnCharAux sep rest []
      else splitOnCharAux sep rest (c :: acc)

/-- Python `s.split(sep)` for a one-character separator. -/
def splitOnSep (sep : Char) (s : String) : List String := splitOnCharAux sep s.data []

/-- The underscore character, used by the PSU-table token split. -/
def underscoreChar : Char := Char.ofNat 95

/-- Python `round(x, 1)`: round half to even at one decimal place.
(The source rounds a float; claims never depend on the tie behaviour.) -/
def roundHalfEven (q : ℚ) : ℤ :=
  if q - (⌊q⌋ : ℚ) < 1/2 then ⌊q⌋
  else if (1/2 : ℚ) < q - (⌊q⌋ : ℚ) then ⌊q⌋ + 1
  else if ⌊q⌋ % 2 = 0 then ⌊q⌋ else ⌊q⌋ + 1

/-- `round(x, 1)` from the build summary, on the rational model of the average. -/
def pyRound1 (q : ℚ) : ℚ := ((roundHalfEven (q * 10) : ℤ) : ℚ) / 10

/-- First-match association-list lookup: Python `dict.get` over the embedded tables. -/
def assocLookup {α : Type} : List (String × α) → String → Option α
  | [], _ => none
  | (k, v) :: rest, key => if key = k then some v else assocLookup rest key

/-- Python `min(xs, key=k)` over the nonempty list `a :: l`: iterates left to
right, replacing the current minimum only on a strictly smaller key, so the
first of several minima wins. -/
def pyMinBy {α β : Type} [LinearOrder β] (key : α → β) : α → List α → α
  | a, [] => a
  | a, x :: xs => pyMinBy key (if key x < key a then x else a) xs

/-- Python `max(xs, key=k)` over the nonempty list `a :: l`: iterates left to
right, replacing the current maximum only on a strictly larger key, so the
first of several maxima wins. -/
def pyMaxBy {α β : Type} [LinearOrder β] (key : α → β) : α → List α → α
  | a, [] => a
  | a, x :: xs => pyMaxBy key (if key a < key x then x else a) xs

/-- `BuildPurpose` enumeration from `engine.py`. -/
inductive BuildPurpose where
  | GAMING_BUDGET
  | GAMING_MID
  | GAMING_HIGH
  | OFFICE
  | PRODUCTIVITY
  | CONTENT_CREATION
  | PROGRAMMING
deriving DecidableEq, Inhabited

/-- The `.value` string of each `BuildPurpose` member. -/
def purposeValue : BuildPurpose → String
  | .GAMING_BUDGET => "gaming_budget"
  | .GAMING_MID => "gaming_mid"
  | .GAMING_HIGH => "gaming_high"
  | .OFFICE => "office"
  | .PRODUCTIVITY => "productivity"
  | .CONTENT_CREATION => "content_creation"
  | .PROGRAMMING => "programming"

/-- The spec keys the engine reads from a component's `specs` sub-dict. -/
structure Specs where
  socket : Option String := none
  chipset : Option String := none
  wattage : Option ℤ := none
  type : Option String := none
deriving DecidableEq, Inhabited

/-- A catalog component record, restricted to the fields the engine reads.
A missing `performance_score` key is `none` (the engine defaults it to 50). -/
structure Component where
  name : String
  category : String
  price_BDT : ℤ
  stock : String
  specs : Specs := {}
  performance_score : Option ℤ := none
deriving DecidableEq, Inhabited

/-- `BuildRequirements` dataclass.  `preferences` and the brand lists are
declared in the source but never read by the engine. -/
structure BuildRequirements where
  purpose : BuildPurpose
  budget : ℤ
  preferences : Option (List (String × String)) := none
  must_have_brands : Option (List String) := none
  avoid_brands : Option (List String) := none
deriving DecidableEq

/-- Per-category budget fractions of one purpose, stored as integer percents
(`0.35` ↦ `35`): every fraction in the source tables is a whole percent.
The `Cooling` fractions of the source are never read by the assembly and
are omitted. -/
structure Alloc where
  gpu : ℤ
  cpu : ℤ
  ram : ℤ
  motherboard : ℤ
  storage : ℤ
  psu : ℤ
  pcCase : ℤ
deriving DecidableEq

/-- `budget_allocation[purpose]`; `none` models the `KeyError` for a purpose
with no table (`PROGRAMMING`). -/
def budget_allocation : BuildPurpose → Option Alloc
  | .GAMING_BUDGET => some ⟨35, 20, 12, 10, 8, 8, 5⟩
  | .GAMING_MID => some ⟨40, 22, 12, 8, 8, 6, 3⟩
  | .GAMING_HIGH => some ⟨45, 25, 10, 8, 6, 4, 2⟩
  | .OFFICE => some ⟨5, 30, 20, 15, 20, 5, 5⟩
  | .PRODUCTIVITY => some ⟨8, 35, 25, 10, 15, 5, 2⟩
  | .CONTENT_CREATION => some ⟨25, 30, 20, 8, 10, 5, 2⟩
  | .PROGRAMMING => none

/-- `int(budget * fraction)` where `fraction` is the source decimal `pct/100`:
exact truncated division, as Python computes on these whole-percent tables. -/
def catBudget (budget : ℤ) (pct : ℤ) : ℤ := Int.tdiv (budget * pct) 100

/-- `compatibility_rules["cpu_socket_mapping"]`. -/
def cpu_socket_mapping : List (String × List String) :=
  [("AM4", ["B450", "B550", "X470", "X570", "A520"]),
   ("AM5", ["B650", "X670", "B650E", "X670E"]),
   ("LGA1700", ["B660", "H670", "Z690", "B760", "H770", "Z790"]),
   ("LGA1200", ["B460", "H470", "Z490", "B560", "H570", "Z590"])]

/-- `get_compatible_motherboards`: chipsets for a CPU socket, `[]` if unknown. -/
def get_compatible_motherboards (cpu_socket : String) : List String :=
  (assocLookup cpu_socket_mapping cpu_socket).getD []

/-- `compatibility_rules["psu_requirements"]`, in source (dict-insertion) order. -/
def psu_requirements : List (String × ℤ) :=
  [("RTX_4090", 850), ("RTX_4080", 750), ("RTX_4070_TI", 700), ("RTX_4070", 650),
   ("RTX_4060_TI", 550), ("RTX_4060", 500), ("RTX_3070", 650), ("RTX_3060", 550),
   ("GTX_1660", 450), ("INTEGRATED", 400)]

/-- The GPU-wattage loop of `calculate_psu_requirement`: the first table entry
any of whose underscore-separated tokens occurs in the lowercased GPU name
contributes `wattage - 300`; the default marginal draw is 200. -/
def gpuWattScan (nl : String) : List (String × ℤ) → ℤ
  | [] => 200
  | (key, w) :: rest =>
      if (splitOnSep underscoreChar (strLower key)).any (fun tok => strContains nl tok) then
        w - 300
      else gpuWattScan nl rest

/-- `calculate_psu_requirement(gpu_name, cpu_tier)`: base 300W + GPU marginal
draw + CPU draw, times the `1.2` headroom (exactly `6/5`, truncated like
Python `int`), floored at 450W. -/
def calculate_psu_requirement (gpu_name : String) (cpu_tier : String) : ℤ :=
  let gpu_wattage := gpuWattScan (strLower gpu_name) psu_requirements
  let cpu_wattage : ℤ := if cpu_tier = "HIGH" then 150 else if cpu_tier = "MID" then 100 else 65
  max (Int.tdiv ((300 + gpu_wattage + cpu_wattage) * 6) 5) 450

/-- `performance_tiers.get(category, {})`, in dict-insertion order. -/
def performance_tiers (category : String) : List (String × List String) :=
  if category = "CPU" then
    [("HIGH", ["i9", "i7", "ryzen 9", "ryzen 7"]),
     ("MID", ["i5", "ryzen 5"]),
     ("LOW", ["i3", "ryzen 3", "pentium", "celeron"])]
  else if category = "GPU" then
    [("HIGH", ["4090", "4080", "4070 ti", "3080", "3070 ti"]),
     ("MID", ["4070", "4060 ti", "3070", "3060 ti", "6700"]),
     ("LOW", ["4060", "3060", "1660", "1650"])]
  else []

/-- The keyword loop of `get_component_tier`: first tier with a keyword
occurring in the lowercased name wins; default is `"MID"`. -/
def tierScan (nl : String) : List (String × List String) → String
  | [] => "MID"
  | (tier, kws) :: rest =>
      if kws.any (fun k => strContains nl k) then tier else tierScan nl rest

/-- `get_component_tier(component_name, category)`. -/
def get_component_tier (component_name : String) (category : String) : String :=
  tierScan (strLower component_name) (performance_tiers category)

/-- `get_ram_type_for_socket(socket)`; the argument can be Python `None`. -/
def get_ram_type_for_socket : Option String → String
  | some s => if s = "AM5" ∨ s = "LGA1700" then "DDR5" else "DDR4"
  | none => "DDR4"

/-- The MongoDB query document built by `find_best_component`: category and
stock equality, a price ceiling, and the three optional spec filters. -/
structure Query where
  category : String
  maxPrice : ℤ
  chipsetIn : Option (List String) := none
  minWattage : Option ℤ := none
  ramType : Option String := none
deriving DecidableEq

/-- The `requirements` dict threaded through the gaming assembly; a missing
key is `none`. -/
structure ReqDict where
  socket : Option String := none
  min_wattage : Option ℤ := none
  ram_type : Option String := none
deriving DecidableEq

/-- The query construction of `find_best_component`: the category is
upper-cased, the ceiling is the passed budget, and each spec filter is added
only for its category (the chipset filter additionally only when the socket's
compatible-chipset list is nonempty). -/
def buildQuery (category : String) (budget : ℤ) (r : ReqDict) : Query :=
  { category := strUpper category
    maxPrice := budget
    chipsetIn :=
      match r.socket with
      | some s =>
          if category = "Motherboard" then
            if get_compatible_motherboards s = [] then none
            else some (get_compatible_motherboards s)
          else none
      | none => none
    minWattage :=
      match r.min_wattage with
      | some w => if category = "PSU" then some w else none
      | none => none
    ramType :=
      match r.ram_type with
      | some t => if category = "RAM" then some t else none
      | none => none }

/-- `comp.get("performance_score", 50)`, as a rational for score arithmetic. -/
def scoreOf (c : Component) : ℚ := ((c.performance_score.getD 50 : ℤ) : ℚ)

/-- The value score `find_best_component` attaches to a candidate:
`perf * 0.7 + (100 - price / budget * 50) * 0.3`, in exact rationals. -/
def valueScore (budget : ℤ) (c : Component) : ℚ :=
  scoreOf c * (7/10) + (100 - (c.price_BDT : ℚ) / (budget : ℚ) * 50) * (3/10)

/-- `find_best_component(category, budget, requirements)`: query the catalog
(which models `find(query).sort(...).limit(10)`), fail on an empty candidate
list, otherwise return the candidate maximizing the value score (Python `max`
keeps the first-encountered maximum).  The source also stores the value score
on the returned dict; no later code reads it, so the embedding computes the
key on the fly. -/
def find_best_component (catalog : Query → List Component) (category : String)
    (budget : ℤ) (r : ReqDict) : Option Component :=
  match catalog (buildQuery category budget r) with
  | [] => none
  | c :: cs => some (pyMaxBy (valueScore budget) c cs)

/-- Catalog assumption: a query only returns components at or below the
query's price ceiling. -/
def CatalogPriceBound (catalog : Query → List Component) : Prop :=
  ∀ q c, c ∈ catalog q → c.price_BDT ≤ q.maxPrice

/-- Catalog assumption: a query with a chipset filter only returns components
whose chipset spec is one of the requested chipsets. -/
def ChipsetFilterHonored (catalog : Query → List Component) : Prop :=
  ∀ q c l, c ∈ catalog q → q.chipsetIn = some l →
    ∃ ch, c.specs.chipset = some ch ∧ ch ∈ l

/-- The membership predicate of the query document, used by the concrete demo
catalogs: category and stock equality, the price ceiling, and the three
optional spec filters (matching MongoDB, a spec filter only matches documents
that have the spec). -/
def matchesQuery (q : Query) (c : Component) : Bool :=
  c.category == q.category &&
  c.stock == "In Stock" &&
  decide (c.price_BDT ≤ q.maxPrice) &&
  (match q.chipsetIn with
   | none => true
   | some l => l.any (fun s => c.specs.chipset == some s)) &&
  (match q.minWattage with
   | none => true
   | some w =>
       match c.specs.wattage with
       | some cw => decide (w ≤ cw)
       | none => false) &&
  (match q.ramType with
   | none => true
   | some t => c.specs.type == some t)

/-- A concrete catalog built from a fixed component list: filter by the query
document and keep at most 10 results (the demo lists are already sorted). -/
def catalogOf (comps : List Component) (q : Query) : List Component :=
  (comps.filter (fun c => matchesQuery q c)).take 10

lemma matchesQuery_price {q : Query} {c : Component}
    (h : matchesQuery q c = true) : c.price_BDT ≤ q.maxPrice := by
  simp only [matchesQuery, Bool.and_eq_true, decide_eq_true_eq] at h
  exact h.1.1.1.2

lemma matchesQuery_chipset {q : Query} {c : Component} {l : List String}
    (h : matchesQuery q c = true) (hl : q.chipsetIn = some l) :
    ∃ ch, c.specs.chipset = some ch ∧ ch ∈ l := by
  simp only [matchesQuery, Bool.and_eq_true, decide_eq_true_eq] at h
  have h2 := h.1.1.2
  rw [hl] at h2
  simp only [List.any_eq_true, beq_iff_eq] at h2
  obtain ⟨s, hs, hcs⟩ := h2
  exact ⟨s, hcs, hs⟩

lemma mem_catalogOf {comps : List Component} {q : Query} {c : Component}
    (h : c ∈ catalogOf comps q) : c ∈ comps ∧ matchesQuery q c = true := by
  have h2 : c ∈ comps.filter (fun c => matchesQuery q c) :=
    List.take_subset 10 _ h
  simpa using List.mem_filter.mp h2

lemma catalogOf_price (comps : List Component) :
    CatalogPriceBound (catalogOf comps) := by
  intro q c hc
  exact matchesQuery_price (mem_catalogOf hc).2

lemma catalogOf_chipset (comps : List Component) :
    ChipsetFilterHonored (catalogOf comps) := by
  intro q c l hc hl
  exact matchesQuery_chipset (mem_catalogOf hc).2 hl

lemma pyMaxBy_mem {α β : Type} [LinearOrder β] (key : α → β) :
    ∀ (l : List α) (a : α), pyMaxBy key a l ∈ a :: l
  | [], a => by simp [pyMaxBy]
  | x :: xs, a => by
      have h := pyMaxBy_mem key xs (if key a < key x then x else a)
      rw [pyMaxBy]
      rcases List.mem_cons.mp h with h1 | h1
      · rw [h1]
        by_cases hc : key a < key x <;> simp [hc]
      · simp [List.mem_cons.mpr (Or.inr (List.mem_cons.mpr (Or.inr h1)))]

lemma find_best_component_mem {catalog : Query → List Component}
    {category : String} {budget : ℤ} {r : ReqDict} {c : Component}
    (h : find_best_component catalog category budget r = some c) :
    c ∈ catalog (buildQuery category budget r) := by
  unfold find_best_component at h
  cases hq : catalog (buildQuery category budget r) with
  | nil => rw [hq] at h; cases h
  | cons x xs =>
      rw [hq] at h
      have hc : c = pyMaxBy (valueScore budget) x xs := (Option.some.inj h).symm
      rw [hc]
      exact pyMaxBy_mem _ xs x

lemma find_best_component_price {catalog : Query → List Component}
    {category : String} {budget : ℤ} {r : ReqDict} {c : Component}
    (hcat : CatalogPriceBound catalog)
    (h : find_best_component catalog category budget r = some c) :
    c.price_BDT ≤ budget :=
  hcat _ _ (find_best_component_mem h)

/-- Bottleneck-analysis result: `{"warnings": [...], "recommendations": [...]}`. -/
structure Analysis where
  warnings : List String
  recommendations : List String
deriving DecidableEq, Inhabited

/-- `analyze_bottlenecks(build)`: only the CPU and GPU entries of the build
dict are consulted, and only when both are present. -/
def analyze_bottlenecks (cpu : Option Component) (gpu : Option Component) : Analysis :=
  match cpu, gpu with
  | some c, some g =>
      let cpu_tier := get_component_tier c.name "CPU"
      let gpu_tier := get_component_tier g.name "GPU"
      { warnings :=
          (if cpu_tier = "LOW" ∧ gpu_tier = "HIGH"
           then ["CPU may bottleneck GPU performance"] else []) ++
          (if gpu_tier = "LOW" ∧ cpu_tier = "HIGH"
           then ["GPU may limit gaming performance"] else [])
        recommendations :=
          (if cpu_tier = "LOW" ∧ gpu_tier = "HIGH"
           then ["Consider upgrading CPU"] else []) ++
          (if gpu_tier = "LOW" ∧ cpu_tier = "HIGH"
           then ["Consider upgrading GPU"] else []) }
  | _, _ => { warnings := [], recommendations := [] }

/-- The result dict of a successful `build_gaming_pc` run.  GPU, CPU,
Motherboard and RAM are always present; Storage, PSU and Case are optional. -/
structure BuildOut where
  gpu : Component
  cpu : Component
  motherboard : Component
  ram : Component
  storage : Option Component
  psu : Option Component
  pcCase : Option Component
  total_price : ℤ
  budget : ℤ
  remaining_budget : ℤ
  avg_performance_score : ℚ
  build_purpose : String
  compatibility_checked : Bool
  bottleneck_analysis : Analysis
deriving DecidableEq, Inhabited

/-- Price of an optional build entry (0 when the category is absent). -/
def priceOfOpt : Option Component → ℤ
  | none => 0
  | some c => c.price_BDT

/-- Score contribution of an optional build entry. -/
def scoreOfOpt : Option Component → ℚ
  | none => 0
  | some c => scoreOf c

/-- Contribution of an optional build entry to `len(build)`. -/
def countOpt : Option Component → ℚ
  | none => 0
  | some _ => 1

/-- The provisional PSU wattage target computed right after the GPU is
chosen, with the placeholder `"MID"` CPU tier the source hard-codes. -/
def minPsuFor (gpu : Component) : ℤ := calculate_psu_requirement gpu.name "MID"

/-- The `requirements` dict passed to the Motherboard step:
`min_wattage` (set after the GPU) and the CPU socket when present. -/
def mbReq (gpu cpu : Component) : ReqDict :=
  { socket := cpu.specs.socket, min_wattage := some (minPsuFor gpu), ram_type := none }

/-- The `requirements` dict passed to the RAM step: additionally the RAM
generation derived from the CPU socket. -/
def ramReq (gpu cpu : Component) : ReqDict :=
  { socket := cpu.specs.socket, min_wattage := some (minPsuFor gpu),
    ram_type := some (get_ram_type_for_socket cpu.specs.socket) }

/-- The fresh `{"min_wattage": ...}` dict passed to the PSU step. -/
def psuReq (gpu : Component) : ReqDict :=
  { socket := none, min_wattage := some (minPsuFor gpu), ram_type := none }

/-- The empty requirements dict (Python `None`). -/
def emptyReq : ReqDict := {}

/-- The CPU budget: `int(budget * alloc["CPU"])`, scaled by `1.2` (exactly
`6/5`, truncated) when the GPU tier is HIGH. -/
def cpuBudgetFor (reqs : BuildRequirements) (alloc : Alloc) (gpu : Component) : ℤ :=
  if get_component_tier gpu.name "GPU" = "HIGH" then
    Int.tdiv (catBudget reqs.budget alloc.cpu * 6) 5
  else catBudget reqs.budget alloc.cpu

/-- Step 5 of the gaming assembly: the optional Storage pick, under
`min(storage_budget, remaining_budget)`. -/
def storagePick (catalog : Query → List Component) (reqs : BuildRequirements)
    (alloc : Alloc) (gpu cpu mb ram : Component) : Option Component :=
  find_best_component catalog "Storage"
    (min (catBudget reqs.budget alloc.storage)
         (reqs.budget - gpu.price_BDT - cpu.price_BDT - mb.price_BDT - ram.price_BDT))
    emptyReq

/-- Step 6 of the gaming assembly: the optional PSU pick, under
`min(psu_budget, remaining_budget)` with the wattage constraint. -/
def psuPick (catalog : Query → List Component) (reqs : BuildRequirements)
    (alloc : Alloc) (gpu cpu mb ram : Component) : Option Component :=
  find_best_component catalog "PSU"
    (min (catBudget reqs.budget alloc.psu)
         (reqs.budget - gpu.price_BDT - cpu.price_BDT - mb.price_BDT - ram.price_BDT -
          priceOfOpt (storagePick catalog reqs alloc gpu cpu mb ram)))
    (psuReq gpu)

/-- Step 7 of the gaming assembly: the optional Case pick, with the whole
remaining budget as its ceiling (the source has no fractional cap here). -/
def casePick (catalog : Query → List Component) (reqs : BuildRequirements)
    (alloc : Alloc) (gpu cpu mb ram : Component) : Option Component :=
  find_best_component catalog "Case"
    (reqs.budget - gpu.price_BDT - cpu.price_BDT - mb.price_BDT - ram.price_BDT -
     priceOfOpt (storagePick catalog reqs alloc gpu cpu mb ram) -
     priceOfOpt (psuPick catalog reqs alloc gpu cpu mb ram))
    emptyReq

/-- The summary record assembled at the end of `build_gaming_pc`:
`total_price` sums the prices of the categories present, `remaining_budget`
is the tracked remainder (equal to `budget - total_price`), and the average
performance score is rounded to one decimal. -/
def mkGamingBuild (reqs : BuildRequirements) (gpu cpu mb ram : Component)
    (st ps cs : Option Component) : BuildOut :=
  let total := gpu.price_BDT + cpu.price_BDT + mb.price_BDT + ram.price_BDT +
    priceOfOpt st + priceOfOpt ps + priceOfOpt cs
  { gpu := gpu
    cpu := cpu
    motherboard := mb
    ram := ram
    storage := st
    psu := ps
    pcCase := cs
    total_price := total
    budget := reqs.budget
    remaining_budget := reqs.budget - total
    avg_performance_score := pyRound1
      ((scoreOf gpu + scoreOf cpu + scoreOf mb + scoreOf ram +
        scoreOfOpt st + scoreOfOpt ps + scoreOfOpt cs) /
       (4 + countOpt st + countOpt ps + countOpt cs))
    build_purpose := purposeValue reqs.purpose
    compatibility_checked := true
    bottleneck_analysis := analyze_bottlenecks (some cpu) (some gpu) }

/-- The optional tail (Storage, PSU, Case) plus summary of the gaming
assembly, entered once the four required categories have resolved. -/
def gamingTail (catalog : Query → List Component) (reqs : BuildRequirements)
    (alloc : Alloc) (gpu cpu mb ram : Component) : BuildOut :=
  mkGamingBuild reqs gpu cpu mb ram
    (storagePick catalog reqs alloc gpu cpu mb ram)
    (psuPick catalog reqs alloc gpu cpu mb ram)
    (casePick catalog reqs alloc gpu cpu mb ram)

/-- `build_gaming_pc(requirements)`: the sequential gaming assembly.  The
four required categories abort the build with the source's error strings
when no candidate exists. -/
def build_gaming_pc (catalog : Query → List Component)
    (reqs : BuildRequirements) : Except String BuildOut :=
  match budget_allocation reqs.purpose with
  | none => Except.error "KeyError: purpose has no allocation table"
  | some alloc =>
    match find_best_component catalog "GPU" (catBudget reqs.budget alloc.gpu) emptyReq with
    | none => Except.error "No suitable GPU found within budget"
    | some gpu =>
      match find_best_component catalog "CPU"
          (min (cpuBudgetFor reqs alloc gpu) (reqs.budget - gpu.price_BDT)) emptyReq with
      | none => Except.error "No suitable CPU found within budget"
      | some cpu =>
        match find_best_component catalog "Motherboard"
            (min (catBudget reqs.budget alloc.motherboard)
                 (reqs.budget - gpu.price_BDT - cpu.price_BDT))
            (mbReq gpu cpu) with
        | none => Except.error "No compatible motherboard found"
        | some mb =>
          match find_best_component catalog "RAM"
              (min (catBudget reqs.budget alloc.ram)
                   (reqs.budget - gpu.price_BDT - cpu.price_BDT - mb.price_BDT))
              (ramReq gpu cpu) with
          | none => Except.error "No suitable RAM found"
          | some ram => Except.ok (gamingTail catalog reqs alloc gpu cpu mb ram)

/-- What `recommend_build` can evaluate to: a build dict, an error dict, or
Python `None` (the office/productivity stub's result). -/
inductive RecResult where
  | build : BuildOut → RecResult
  | error : String → RecResult
  | nullResult : RecResult
deriving DecidableEq

/-- The office/productivity builder: the source body is `pass`, so the call
evaluates to Python `None`, modelled by `RecResult.nullResult`. -/
def build_office_pc (_reqs : BuildRequirements) : RecResult := RecResult.nullResult

/-- `recommend_build(requirements)`: route gaming purposes to
`build_gaming_pc`, office/productivity to the stub, and fall back to the
`"not yet implemented"` error dict. -/
def recommend_build (catalog : Query → List Component)
    (reqs : BuildRequirements) : RecResult :=
  if reqs.purpose = .GAMING_BUDGET ∨ reqs.purpose = .GAMING_MID ∨
      reqs.purpose = .GAMING_HIGH then
    match build_gaming_pc catalog reqs with
    | Except.ok b => RecResult.build b
    | Except.error e => RecResult.error e
  else if reqs.purpose = .OFFICE ∨ reqs.purpose = .PRODUCTIVITY then
    build_office_pc reqs
  else
    RecResult.error ("Build purpose " ++ purposeValue reqs.purpose ++ " not yet implemented")

/-- Extract the build of a successful result (junk value on errors); used to
name the concrete builds of the demo runs. -/
def extractBuild : Except String BuildOut → BuildOut
  | Except.ok b => b
  | Except.error _ => default

/-- Remaining budget right after the RAM step of a successful build. -/
def remAfterRAM (b : BuildOut) : ℤ :=
  b.budget - b.gpu.price_BDT - b.cpu.price_BDT - b.motherboard.price_BDT - b.ram.price_BDT

/-- Remaining budget right after the Storage step. -/
def remAfterStorage (b : BuildOut) : ℤ := remAfterRAM b - priceOfOpt b.storage

/-- Remaining budget right after the PSU step (the Case ceiling). -/
def remAfterPSU (b : BuildOut) : ℤ := remAfterStorage b - priceOfOpt b.psu

/-- A build dict as consumed by `compare_builds`: the three keys the function
reads, each possibly absent, plus `tag`, which stands for all the other keys
of the dict (never read or written by `compare_builds`). -/
structure CmpBuild where
  total_price : Option ℚ
  avg_performance_score : Option ℚ
  value_score : Option ℚ
  tag : String
deriving DecidableEq, Inhabited

/-- The comparison dict returned by `compare_builds`. -/
structure Comparison where
  builds : List CmpBuild
  best_value : Option CmpBuild
  best_performance : Option CmpBuild
  cheapest : Option CmpBuild
deriving DecidableEq

/-- The value score `compare_builds` writes into each build:
`(avg_performance_score default 50) / (total_price default 1) * 10000`. -/
def cmpValueScore (b : CmpBuild) : ℚ :=
  b.avg_performance_score.getD 50 / b.total_price.getD 1 * 10000

/-- The in-place mutation `build["value_score"] = ...` applied to one build. -/
def addValueScore (b : CmpBuild) : CmpBuild :=
  { b with value_score := some (cmpValueScore b) }

/-- Key of the `cheapest` pick: `build.get("total_price", float("inf"))`. -/
def priceKey (b : CmpBuild) : WithTop ℚ :=
  match b.total_price with
  | some p => (p : WithTop ℚ)
  | none => ⊤

/-- Key of the `best_performance` pick: `build.get("avg_performance_score", 0)`. -/
def perfVal (b : CmpBuild) : ℚ := b.avg_performance_score.getD 0

/-- Key of the `best_value` pick: `build.get("value_score", 0)`. -/
def valueKey (b : CmpBuild) : ℚ := b.value_score.getD 0

/-- `compare_builds(builds)`.  On a nonempty list the source first chooses
`cheapest`/`best_performance`, then mutates every build dict in place by
writing its `value_score`, then chooses `best_value`; since the chosen dicts
alias the mutated ones, the pure embedding applies `addValueScore`
everywhere first (it changes neither the price key nor the performance key)
and the returned `builds` list holds the mutated dicts in input order. -/
def compare_builds (builds : List CmpBuild) : Comparison :=
  match builds with
  | [] => { builds := [], best_value := none, best_performance := none, cheapest := none }
  | b :: bs =>
      let ub := addValueScore b
      let ubs := bs.map addValueScore
      { builds := ub :: ubs
        best_value := some (pyMaxBy valueKey ub ubs)
        best_performance := some (pyMaxBy perfVal ub ubs)
        cheapest := some (pyMinBy priceKey ub ubs) }

/-- `c` is the first minimum of `l` under `key`: it occurs in `l`, its key is
minimal, and every element before it has a strictly larger key. -/
def IsFirstMinBy {α β : Type} [LinearOrder β] (key : α → β) (l : List α) (c : α) : Prop :=
  ∃ pre post, l = pre ++ c :: post ∧ (∀ x ∈ l, key c ≤ key x) ∧ ∀ x ∈ pre, key c < key x

/-- `c` is the first maximum of `l` under `key`: it occurs in `l`, its key is
maximal, and every element before it has a strictly smaller key. -/
def IsFirstMaxBy {α β : Type} [LinearOrder β] (key : α → β) (l : List α) (c : α) : Prop :=
  ∃ pre post, l = pre ++ c :: post ∧ (∀ x ∈ l, key x ≤ key c) ∧ ∀ x ∈ pre, key x < key c

lemma pyMinBy_first {α β : Type} [LinearOrder β] (key : α → β) :
    ∀ (l : List α) (a : α), IsFirstMinBy key (a :: l) (pyMinBy key a l)
  | [], a => ⟨[], [], by simp [pyMinBy], by simp [pyMinBy], by simp⟩
  | x :: xs, a => by
      by_cases hxa : key x < key a
      · obtain ⟨pre, post, heq, hmin, hpre⟩ := pyMinBy_first key xs x
        rw [pyMinBy, if_pos hxa]
        refine ⟨a :: pre, post, ?_, ?_, ?_⟩
        · rw [List.cons_append, ← heq]
        · intro y hy
          rcases List.mem_cons.mp hy with rfl | hy2
          · exact le_of_lt (lt_of_le_of_lt (hmin x (by simp)) hxa)
          · exact hmin y hy2
        · intro y hy
          rcases List.mem_cons.mp hy with rfl | hy2
          · exact lt_of_le_of_lt (hmin x (by simp)) hxa
          · exact hpre y hy2
      · obtain ⟨pre, post, heq, hmin, hpre⟩ := pyMinBy_first key xs a
        rw [pyMinBy, if_neg hxa]
        cases pre with
        | nil =>
            simp only [List.nil_append] at heq
            injection heq with ha hxs
            refine ⟨[], x :: xs, ?_, ?_, ?_⟩
            · simp [← ha]
            · intro y hy
              rcases List.mem_cons.mp hy with rfl | hy2
              · rw [← ha]
              · rcases List.mem_cons.mp hy2 with rfl | hy3
                · rw [← ha]; exact le_of_not_lt hxa
                · exact hmin y (by simp [hy3])
            · intro y hy
              exact absurd hy (List.not_mem_nil y)
        | cons p pre2 =>
            rw [List.cons_append] at heq
            injection heq with ha hxs
            subst ha
            have hra : key (pyMinBy key a xs) < key a := hpre a (by simp)
            refine ⟨a :: x :: pre2, post, ?_, ?_, ?_⟩
            · conv_lhs => rw [hxs]
              simp
            · intro y hy
              rcases List.mem_cons.mp hy with rfl | hy2
              · exact hmin y (by simp)
              · rcases List.mem_cons.mp hy2 with rfl | hy3
                · exact le_of_lt (lt_of_lt_of_le hra (le_of_not_lt hxa))
                · exact hmin y (by simp [hy3])
            · intro y hy
              rcases List.mem_cons.mp hy with rfl | hy2
              · exact hpre y (by simp)
              · rcases List.mem_cons.mp hy2 with rfl | hy3
                · exact lt_of_lt_of_le hra (le_of_not_lt hxa)
                · exact hpre y (by simp [hy3])

lemma pyMaxBy_first {α β : Type} [LinearOrder β] (key : α → β) :
    ∀ (l : List α) (a : α), IsFirstMaxBy key (a :: l) (pyMaxBy key a l)
  | [], a => ⟨[], [], by simp [pyMaxBy], by simp [pyMaxBy], by simp⟩
  | x :: xs, a => by
      by_cases hxa : key a < key x
      · obtain ⟨pre, post, heq, hmax, hpre⟩ := pyMaxBy_first key xs x
        rw [pyMaxBy, if_pos hxa]
        refine ⟨a :: pre, post, ?_, ?_, ?_⟩
        · rw [List.cons_append, ← heq]
        · intro y hy
          rcases List.mem_cons.mp hy with rfl | hy2
          · exact le_of_lt (lt_of_lt_of_le hxa (hmax x (by simp)))
          · exact hmax y hy2
        · intro y hy
          rcases List.mem_cons.mp hy with rfl | hy2
          · exact lt_of_lt_of_le hxa (hmax x (by simp))
          · exact hpre y hy2
      · obtain ⟨pre, post, heq, hmax, hpre⟩ := pyMaxBy_first key xs a
        rw [pyMaxBy, if_neg hxa]
        cases pre with
        | nil =>
            simp only [List.nil_append] at heq
            injection heq with ha hxs
            refine ⟨[], x :: xs, ?_, ?_, ?_⟩
            · simp [← ha]
            · intro y hy
              rcases List.mem_cons.mp hy with rfl | hy2
              · rw [← ha]
              · rcases List.mem_cons.mp hy2 with rfl | hy3
                · rw [← ha]; exact le_of_not_lt hxa
                · exact hmax y (by simp [hy3])
            · intro y hy
              exact absurd hy (List.not_mem_nil y)
        | cons p pre2 =>
            rw [List.cons_append] at heq
            injection heq with ha hxs
            subst ha
            have hra : key a < key (pyMaxBy key a xs) := hpre a (by simp)
            refine ⟨a :: x :: pre2, post, ?_, ?_, ?_⟩
            · conv_lhs => rw [hxs]
              simp
            · intro y hy
              rcases List.mem_cons.mp hy with rfl | hy2
              · exact hmax y (by simp)
              · rcases List.mem_cons.mp hy2 with rfl | hy3
                · exact le_of_lt (lt_of_le_of_lt (le_of_not_lt hxa) hra)
                · exact hmax y (by simp [hy3])
            · intro y hy
              rcases List.mem_cons.mp hy with rfl | hy2
              · exact hpre y (by simp)
              · rcases List.mem_cons.mp hy2 with rfl | hy3
                · exact lt_of_le_of_lt (le_of_not_lt hxa) hra
                · exact hpre y (by simp [hy3])

@[simp] lemma gamingTail_gpu (catalog : Query → List Component)
    (reqs : BuildRequirements) (alloc : Alloc) (gpu cpu mb ram : Component) :
    (gamingTail catalog reqs alloc gpu cpu mb ram).gpu = gpu := rfl

@[simp] lemma gamingTail_cpu (catalog : Query → List Component)
    (reqs : BuildRequirements) (alloc : Alloc) (gpu cpu mb ram : Component) :
    (gamingTail catalog reqs alloc gpu cpu mb ram).cpu = cpu := rfl

@[simp] lemma gamingTail_motherboard (catalog : Query → List Component)
    (reqs : BuildRequirements) (alloc : Alloc) (gpu cpu mb ram : Component) :
    (gamingTail catalog reqs alloc gpu cpu mb ram).motherboard = mb := rfl

@[simp] lemma gamingTail_ram (catalog : Query → List Component)
    (reqs : BuildRequirements) (alloc : Alloc) (gpu cpu mb ram : Component) :
    (gamingTail catalog reqs alloc gpu cpu mb ram).ram = ram := rfl

@[simp] lemma gamingTail_storage (catalog : Query → List Component)
    (reqs : BuildRequirements) (alloc : Alloc) (gpu cpu mb ram : Component) :
    (gamingTail catalog reqs alloc gpu cpu mb ram).storage =
      storagePick catalog reqs alloc gpu cpu mb ram := rfl

@[simp] lemma gamingTail_psu (catalog : Query → List Component)
    (reqs : BuildRequirements) (alloc : Alloc) (gpu cpu mb ram : Component) :
    (gamingTail catalog reqs alloc gpu cpu mb ram).psu =
      psuPick catalog reqs alloc gpu cpu mb ram := rfl

@[simp] lemma gamingTail_pcCase (catalog : Query → List Component)
    (reqs : BuildRequirements) (alloc : Alloc) (gpu cpu mb ram : Component) :
    (gamingTail catalog reqs alloc gpu cpu mb ram).pcCase =
      casePick catalog reqs alloc gpu cpu mb ram := rfl

@[simp] lemma gamingTail_budget (catalog : Query → List Component)
    (reqs : BuildRequirements) (alloc : Alloc) (gpu cpu mb ram : Component) :
    (gamingTail catalog reqs alloc gpu cpu mb ram).budget = reqs.budget := rfl

@[simp] lemma gamingTail_total (catalog : Query → List Component)
    (reqs : BuildRequirements) (alloc : Alloc) (gpu cpu mb ram : Component) :
    (gamingTail catalog reqs alloc gpu cpu mb ram).total_price =
      gpu.price_BDT + cpu.price_BDT + mb.price_BDT + ram.price_BDT +
      priceOfOpt (storagePick catalog reqs alloc gpu cpu mb ram) +
      priceOfOpt (psuPick catalog reqs alloc gpu cpu mb ram) +
      priceOfOpt (casePick catalog reqs alloc gpu cpu mb ram) := rfl

@[simp] lemma gamingTail_remaining (catalog : Query → List Component)
    (reqs : BuildRequirements) (alloc : Alloc) (gpu cpu mb ram : Component) :
    (gamingTail catalog reqs alloc gpu cpu mb ram).remaining_budget =
      reqs.budget - (gamingTail catalog reqs alloc gpu cpu mb ram).total_price := rfl

lemma build_gaming_pc_shape {catalog : Query → List Component}
    {reqs : BuildRequirements} {b : BuildOut}
    (h : build_gaming_pc catalog reqs = Except.ok b) :
    ∃ alloc gpu cpu mb ram,
      budget_allocation reqs.purpose = some alloc ∧
      find_best_component catalog "GPU" (catBudget reqs.budget alloc.gpu) emptyReq = some gpu ∧
      find_best_component catalog "CPU"
        (min (cpuBudgetFor reqs alloc gpu) (reqs.budget - gpu.price_BDT)) emptyReq = some cpu ∧
      find_best_component catalog "Motherboard"
        (min (catBudget reqs.budget alloc.motherboard)
             (reqs.budget - gpu.price_BDT - cpu.price_BDT)) (mbReq gpu cpu) = some mb ∧
      find_best_component catalog "RAM"
        (min (catBudget reqs.budget alloc.ram)
             (reqs.budget - gpu.price_BDT - cpu.price_BDT - mb.price_BDT))
        (ramReq gpu cpu) = some ram ∧
      b = gamingTail catalog reqs alloc gpu cpu mb ram := by
  unfold build_gaming_pc at h
  cases ha : budget_allocation reqs.purpose with
  | none => rw [ha] at h; dsimp only at h; cases h
  | some alloc =>
    rw [ha] at h
    dsimp only at h
    cases hg : find_best_component catalog "GPU" (catBudget reqs.budget alloc.gpu) emptyReq with
    | none => rw [hg] at h; dsimp only at h; cases h
    | some gpu =>
      rw [hg] at h
      dsimp only at h
      cases hc : find_best_component catalog "CPU"
          (min (cpuBudgetFor reqs alloc gpu) (reqs.budget - gpu.price_BDT)) emptyReq with
      | none => rw [hc] at h; dsimp only at h; cases h
      | some cpu =>
        rw [hc] at h
        dsimp only at h
        cases hm : find_best_component catalog "Motherboard"
            (min (catBudget reqs.budget alloc.motherboard)
                 (reqs.budget - gpu.price_BDT - cpu.price_BDT)) (mbReq gpu cpu) with
        | none => rw [hm] at h; dsimp only at h; cases h
        | some mb =>
          rw [hm] at h
          dsimp only at h
          cases hr : find_best_component catalog "RAM"
              (min (catBudget reqs.budget alloc.ram)
                   (reqs.budget - gpu.price_BDT - cpu.price_BDT - mb.price_BDT))
              (ramReq gpu cpu) with
          | none => rw [hr] at h; dsimp only at h; cases h
          | some ram =>
            rw [hr] at h
            dsimp only at h
            exact ⟨alloc, gpu, cpu, mb, ram, rfl, hg, hc, hm, hr, (Except.ok.inj h).symm⟩

lemma build_gaming_pc_bounds {catalog : Query → List Component}
    {reqs : BuildRequirements} {alloc : Alloc} {b : BuildOut}
    (hcat : CatalogPriceBound catalog)
    (ha : budget_allocation reqs.purpose = some alloc)
    (h : build_gaming_pc catalog reqs = Except.ok b) :
    b.budget = reqs.budget ∧
    b.gpu.price_BDT ≤ catBudget reqs.budget alloc.gpu ∧
    b.cpu.price_BDT ≤ min (cpuBudgetFor reqs alloc b.gpu) (reqs.budget - b.gpu.price_BDT) ∧
    b.motherboard.price_BDT ≤ min (catBudget reqs.budget alloc.motherboard)
        (reqs.budget - b.gpu.price_BDT - b.cpu.price_BDT) ∧
    b.ram.price_BDT ≤ min (catBudget reqs.budget alloc.ram)
        (reqs.budget - b.gpu.price_BDT - b.cpu.price_BDT - b.motherboard.price_BDT) ∧
    (∀ s, b.storage = some s →
        s.price_BDT ≤ min (catBudget reqs.budget alloc.storage) (remAfterRAM b)) ∧
    (∀ p, b.psu = some p →
        p.price_BDT ≤ min (catBudget reqs.budget alloc.psu) (remAfterStorage b)) ∧
    (∀ k, b.pcCase = some k → k.price_BDT ≤ remAfterPSU b) ∧
    b.total_price = b.gpu.price_BDT + b.cpu.price_BDT + b.motherboard.price_BDT +
        b.ram.price_BDT + priceOfOpt b.storage + priceOfOpt b.psu + priceOfOpt b.pcCase ∧
    b.remaining_budget = reqs.budget - b.total_price := by
  obtain ⟨alloc2, gpu, cpu, mb, ram, ha2, hg, hc, hm, hr, hb⟩ := build_gaming_pc_shape h
  rw [ha] at ha2
  injection ha2 with ha3
  subst ha3
  subst hb
  simp only [gamingTail_gpu, gamingTail_cpu, gamingTail_motherboard, gamingTail_ram,
    gamingTail_storage, gamingTail_psu, gamingTail_pcCase, gamingTail_budget,
    gamingTail_total, gamingTail_remaining, remAfterRAM, remAfterStorage, remAfterPSU]
  refine ⟨trivial, ?_, ?_, ?_, ?_, ?_, ?_, ?_, trivial, trivial⟩
  · exact find_best_component_price hcat hg
  · exact find_best_component_price hcat hc
  · exact find_best_component_price hcat hm
  · exact find_best_component_price hcat hr
  · intro s hs
    unfold storagePick at hs
    exact find_best_component_price hcat hs
  · intro p hp
    unfold psuPick at hp
    exact find_best_component_price hcat hp
  · intro k hk
    unfold casePick at hk
    exact find_best_component_price hcat hk

lemma tdiv_eq_ediv_nonneg {a b : ℤ} (ha : 0 ≤ a) (hb : 0 ≤ b) :
    Int.tdiv a b = a / b := by
  lift a to ℕ using ha
  lift b to ℕ using hb
  rfl

lemma catBudget_le {b p : ℤ} (hb : 0 ≤ b) (hp0 : 0 ≤ p) (hp : p ≤ 100) :
    catBudget b p ≤ b := by
  unfold catBudget
  rw [tdiv_eq_ediv_nonneg (mul_nonneg hb hp0) (by norm_num)]
  calc b * p / 100 ≤ b * 100 / 100 :=
        Int.ediv_le_ediv (by norm_num) (mul_le_mul_of_nonneg_left hp hb)
    _ = b := Int.mul_ediv_cancel b (by norm_num)

lemma priceOfOpt_le {o : Option Component} {m : ℤ} (h0 : 0 ≤ m)
    (h : ∀ x, o = some x → x.price_BDT ≤ m) : priceOfOpt o ≤ m := by
  cases o with
  | none => simpa [priceOfOpt] using h0
  | some c => simpa [priceOfOpt] using h c rfl

lemma build_total_le {catalog : Query → List Component}
    {reqs : BuildRequirements} {alloc : Alloc} {b : BuildOut}
    (hcat : CatalogPriceBound catalog)
    (ha : budget_allocation reqs.purpose = some alloc)
    (hgpu_le : catBudget reqs.budget alloc.gpu ≤ reqs.budget)
    (h : build_gaming_pc catalog reqs = Except.ok b) :
    b.total_price ≤ reqs.budget := by
  obtain ⟨hbud, hg, hc, hm, hr, hs, hp, hk, htot, hrem⟩ := build_gaming_pc_bounds hcat ha h
  have hg2 : b.gpu.price_BDT ≤ reqs.budget := le_trans hg hgpu_le
  have hc2 : b.cpu.price_BDT ≤ reqs.budget - b.gpu.price_BDT :=
    le_trans hc (min_le_right _ _)
  have hm2 : b.motherboard.price_BDT ≤
      reqs.budget - b.gpu.price_BDT - b.cpu.price_BDT :=
    le_trans hm (min_le_right _ _)
  have hr2 : b.ram.price_BDT ≤
      reqs.budget - b.gpu.price_BDT - b.cpu.price_BDT - b.motherboard.price_BDT :=
    le_trans hr (min_le_right _ _)
  have h4 : 0 ≤ remAfterRAM b := by
    unfold remAfterRAM; rw [hbud]; linarith
  have hst2 : priceOfOpt b.storage ≤ remAfterRAM b :=
    priceOfOpt_le h4 (fun s hs2 => le_trans (hs s hs2) (min_le_right _ _))
  have h5 : 0 ≤ remAfterStorage b := by
    unfold remAfterStorage; linarith
  have hps2 : priceOfOpt b.psu ≤ remAfterStorage b :=
    priceOfOpt_le h5 (fun p hp2 => le_trans (hp p hp2) (min_le_right _ _))
  have h6 : 0 ≤ remAfterPSU b := by
    unfold remAfterPSU; linarith
  have hcs2 : priceOfOpt b.pcCase ≤ remAfterPSU b := priceOfOpt_le h6 hk
  rw [htot]
  simp only [remAfterPSU, remAfterStorage, remAfterRAM, hbud] at hst2 hps2 hcs2
  linarith

/-- Claim C1: for every gaming purpose and positive budget, if
`recommend_build` returns a build (rather than an error), its `total_price`
is at most the requested budget, provided every catalog query returns only
components priced at or below the query's price ceiling. -/
theorem c1_total_price_le_budget (catalog : Query → List Component)
    (reqs : BuildRequirements) (b : BuildOut)
    (hp : reqs.purpose = .GAMING_BUDGET ∨ reqs.purpose = .GAMING_MID ∨
          reqs.purpose = .GAMING_HIGH)
    (hb : 0 < reqs.budget)
    (hcat : CatalogPriceBound catalog)
    (h : recommend_build catalog reqs = RecResult.build b) :
    b.total_price ≤ reqs.budget := by
  unfold recommend_build at h
  rw [if_pos hp] at h
  cases hres : build_gaming_pc catalog reqs with
  | error e => rw [hres] at h; dsimp only at h; cases h
  | ok b2 =>
      rw [hres] at h
      dsimp only at h
      injection h with hbb
      subst hbb
      rcases hp with hp | hp | hp
      · have ha : budget_allocation reqs.purpose = some ⟨35, 20, 12, 10, 8, 8, 5⟩ := by
          rw [hp]; rfl
        exact build_total_le hcat ha
          (catBudget_le (le_of_lt hb) (by decide) (by decide)) hres
      · have ha : budget_allocation reqs.purpose = some ⟨40, 22, 12, 8, 8, 6, 3⟩ := by
          rw [hp]; rfl
        exact build_total_le hcat ha
          (catBudget_le (le_of_lt hb) (by decide) (by decide)) hres
      · have ha : budget_allocation reqs.purpose = some ⟨45, 25, 10, 8, 6, 4, 2⟩ := by
          rw [hp]; rfl
        exact build_total_le hcat ha
          (catBudget_le (le_of_lt hb) (by decide) (by decide)) hres

/-- Demo GPU (tier LOW, so no CPU-budget scaling in the demo run). -/
def demoGPU : Component :=
  { name := "GeForce RTX 3060", category := "GPU", price_BDT := 300,
    stock := "In Stock", performance_score := some 70 }

/-- Demo CPU with a known socket. -/
def demoCPU : Component :=
  { name := "AMD Ryzen 5 5600", category := "CPU", price_BDT := 200,
    stock := "In Stock", specs := { socket := some "AM4" },
    performance_score := some 60 }

/-- Demo motherboard whose chipset is compatible with `AM4`. -/
def demoMB : Component :=
  { name := "MSI B550 Board", category := "MOTHERBOARD", price_BDT := 80,
    stock := "In Stock", specs := { chipset := some "B550" },
    performance_score := some 55 }

/-- Demo DDR4 RAM. -/
def demoRAM : Component :=
  { name := "Kingston Fury 16GB", category := "RAM", price_BDT := 100,
    stock := "In Stock", specs := { type := some "DDR4" },
    performance_score := some 50 }

/-- Demo storage. -/
def demoStorage : Component :=
  { name := "NVMe SSD 1TB", category := "STORAGE", price_BDT := 50,
    stock := "In Stock", performance_score := some 50 }

/-- Demo PSU with enough wattage for the provisional 1140W target. -/
def demoPSU : Component :=
  { name := "Gold 1200W", category := "PSU", price_BDT := 60,
    stock := "In Stock", specs := { wattage := some 1200 },
    performance_score := some 50 }

/-- Demo case. -/
def demoCase : Component :=
  { name := "ATX Tower", category := "CASE", price_BDT := 40,
    stock := "In Stock", performance_score := some 40 }

/-- The demo component list (one in-stock component per category). -/
def demoComps : List Component :=
  [demoGPU, demoCPU, demoMB, demoRAM, demoStorage, demoPSU, demoCase]

/-- The demo catalog. -/
def demoCatalog : Query → List Component := catalogOf demoComps

/-- Demo request: gaming on a budget of 1000. -/
def demoReqs : BuildRequirements := { purpose := .GAMING_BUDGET, budget := 1000 }

/-- The build the demo run produces. -/
def demoBuild : BuildOut := extractBuild (build_gaming_pc demoCatalog demoReqs)

/-- Witness for C1 at the demo catalog and a budget of 1000. -/
theorem c1_total_price_le_budget_witness : demoBuild.total_price ≤ demoReqs.budget :=
  c1_total_price_le_budget demoCatalog demoReqs demoBuild
    (Or.inl rfl) (by decide) (catalogOf_price demoComps) rfl

/-- Claim C2 (code bug): for an `office` or `productivity` purpose,
`recommend_build` routes to the `build_office_pc` stub, whose body is `pass`,
and therefore returns Python `None` rather than the structured
`"not yet implemented"` error the spec requires.  Evaluated here at
budget 50000 with an empty catalog (the catalog is never consulted). -/
theorem c2_office_stub_returns_none :
    recommend_build (catalogOf []) { purpose := .OFFICE, budget := 50000 } =
      RecResult.nullResult ∧
    recommend_build (catalogOf []) { purpose := .PRODUCTIVITY, budget := 50000 } =
      RecResult.nullResult := ⟨rfl, rfl⟩

/-- Claim C3 (code bug): `calculate_psu_requirement("RTX 3060", "MID")`
returns 1140, not the 780 the spec's per-family reading predicts: the loop
accepts the first table key any of whose underscore tokens occurs in the
name, and the token `"rtx"` of the first key `RTX_4090` matches every RTX
card, so the GPU marginal draw is `850 - 300 = 550` instead of
`550 - 300 = 250`. -/
theorem c3_psu_rtx3060_mid_returns_1140 :
    calculate_psu_requirement "RTX 3060" "MID" = 1140 := by decide

/-- Claim C4, amended: for a successful gaming build, *provided the CPU's
socket is present and maps to a nonempty compatible-chipset list*, the
motherboard's chipset is one of the chipsets compatible with that socket
(assuming the catalog honors chipset filters).  Without that proviso the
source skips the chipset filter entirely (see `c4_counterexample`). -/
theorem c4_chipset_member_amended (catalog : Query → List Component)
    (reqs : BuildRequirements) (b : BuildOut) (s : String)
    (hfil : ChipsetFilterHonored catalog)
    (h : build_gaming_pc catalog reqs = Except.ok b)
    (hs : b.cpu.specs.socket = some s)
    (hne : get_compatible_motherboards s ≠ []) :
    ∃ ch, b.motherboard.specs.chipset = some ch ∧
      ch ∈ get_compatible_motherboards s := by
  obtain ⟨alloc, gpu, cpu, mb, ram, ha, hg, hc, hm, hr, hb⟩ := build_gaming_pc_shape h
  subst hb
  rw [gamingTail_cpu] at hs
  rw [gamingTail_motherboard]
  have hmem := find_best_component_mem hm
  have hq : (buildQuery "Motherboard"
      (min (catBudget reqs.budget alloc.motherboard)
           (reqs.budget - gpu.price_BDT - cpu.price_BDT))
      (mbReq gpu cpu)).chipsetIn = some (get_compatible_motherboards s) := by
    simp [buildQuery, mbReq, hs, hne]
  exact hfil _ _ _ hmem hq

/-- Witness for the amended C4 at the demo catalog (socket `AM4`,
chipset `B550`). -/
theorem c4_chipset_member_amended_witness :
    ∃ ch, demoBuild.motherboard.specs.chipset = some ch ∧
      ch ∈ get_compatible_motherboards "AM4" :=
  c4_chipset_member_amended demoCatalog demoReqs demoBuild "AM4"
    (catalogOf_chipset demoComps) rfl (by decide) (by decide)

/-- CPU whose socket (`sTRX4`) is not in the socket-to-chipset table. -/
def cex4CPU : Component :=
  { name := "Threadripper 3960X", category := "CPU", price_BDT := 200,
    stock := "In Stock", specs := { socket := some "sTRX4" },
    performance_score := some 60 }

/-- Motherboard whose chipset is incompatible with every known socket. -/
def cex4MB : Component :=
  { name := "TRX40 Creator", category := "MOTHERBOARD", price_BDT := 80,
    stock := "In Stock", specs := { chipset := some "TRX40" },
    performance_score := some 55 }

/-- Catalog components for the C4 counterexample. -/
def cex4Comps : List Component := [demoGPU, cex4CPU, cex4MB, demoRAM]

/-- Catalog for the C4 counterexample. -/
def cex4Catalog : Query → List Component := catalogOf cex4Comps

/-- The build the C4 counterexample run produces. -/
def cex4Build : BuildOut := extractBuild (build_gaming_pc cex4Catalog demoReqs)

/-- Counterexample to C4 as stated: the catalog honors every chipset filter
it is given, the gaming assembly succeeds with both a CPU and a Motherboard,
the CPU's socket is `sTRX4` — which maps to the empty chipset list, so no
chipset filter is ever applied — and the motherboard's chipset `TRX40` is
not a member of that (empty) compatible-chipset set. -/
theorem c4_counterexample :
    ChipsetFilterHonored cex4Catalog ∧
    build_gaming_pc cex4Catalog demoReqs = Except.ok cex4Build ∧
    cex4Build.cpu.specs.socket = some "sTRX4" ∧
    cex4Build.motherboard.specs.chipset = some "TRX40" ∧
    "TRX40" ∉ get_compatible_motherboards "sTRX4" :=
  ⟨catalogOf_chipset cex4Comps, rfl, by decide, by decide, by decide⟩

/-- The gaming_budget allocation row, named for the demo statements. -/
def allocGB : Alloc := ⟨35, 20, 12, 10, 8, 8, 5⟩

/-- Claim C5, amended: in a successful gaming build, the GPU price is at most
its fractional budget; the CPU price is at most
`min(adjusted cpu budget, remaining)` where the fractional CPU budget is
scaled by 1.2 when the GPU tier is HIGH; Motherboard, RAM, Storage and PSU
prices are at most `min(fractional budget, remaining at selection)`; and the
Case price is bounded only by the remaining budget (the source gives the
Case no fractional cap — see `c5_counterexample`).  All assuming catalog
queries honor their price ceilings. -/
theorem c5_price_bounds_amended (catalog : Query → List Component)
    (reqs : BuildRequirements) (alloc : Alloc) (b : BuildOut)
    (hcat : CatalogPriceBound catalog)
    (ha : budget_allocation reqs.purpose = some alloc)
    (h : build_gaming_pc catalog reqs = Except.ok b) :
    b.gpu.price_BDT ≤ catBudget reqs.budget alloc.gpu ∧
    b.cpu.price_BDT ≤ min (cpuBudgetFor reqs alloc b.gpu)
        (reqs.budget - b.gpu.price_BDT) ∧
    b.motherboard.price_BDT ≤ min (catBudget reqs.budget alloc.motherboard)
        (reqs.budget - b.gpu.price_BDT - b.cpu.price_BDT) ∧
    b.ram.price_BDT ≤ min (catBudget reqs.budget alloc.ram)
        (reqs.budget - b.gpu.price_BDT - b.cpu.price_BDT - b.motherboard.price_BDT) ∧
    (∀ s, b.storage = some s →
        s.price_BDT ≤ min (catBudget reqs.budget alloc.storage) (remAfterRAM b)) ∧
    (∀ p, b.psu = some p →
        p.price_BDT ≤ min (catBudget reqs.budget alloc.psu) (remAfterStorage b)) ∧
    (∀ k, b.pcCase = some k → k.price_BDT ≤ remAfterPSU b) := by
  obtain ⟨-, hg, hc, hm, hr, hs, hp, hk, -, -⟩ := build_gaming_pc_bounds hcat ha h
  exact ⟨hg, hc, hm, hr, hs, hp, hk⟩

/-- Witness for the amended C5 at the demo catalog. -/
theorem c5_price_bounds_amended_witness :
    demoBuild.gpu.price_BDT ≤ catBudget demoReqs.budget allocGB.gpu ∧
    demoBuild.cpu.price_BDT ≤ min (cpuBudgetFor demoReqs allocGB demoBuild.gpu)
        (demoReqs.budget - demoBuild.gpu.price_BDT) ∧
    demoBuild.motherboard.price_BDT ≤ min (catBudget demoReqs.budget allocGB.motherboard)
        (demoReqs.budget - demoBuild.gpu.price_BDT - demoBuild.cpu.price_BDT) ∧
    demoBuild.ram.price_BDT ≤ min (catBudget demoReqs.budget allocGB.ram)
        (demoReqs.budget - demoBuild.gpu.price_BDT - demoBuild.cpu.price_BDT -
         demoBuild.motherboard.price_BDT) ∧
    (∀ s, demoBuild.storage = some s →
        s.price_BDT ≤ min (catBudget demoReqs.budget allocGB.storage) (remAfterRAM demoBuild)) ∧
    (∀ p, demoBuild.psu = some p →
        p.price_BDT ≤ min (catBudget demoReqs.budget allocGB.psu) (remAfterStorage demoBuild)) ∧
    (∀ k, demoBuild.pcCase = some k → k.price_BDT ≤ remAfterPSU demoBuild) :=
  c5_price_bounds_amended demoCatalog demoReqs allocGB demoBuild
    (catalogOf_price demoComps) rfl rfl

/-- Cheap GPU for the C5 counterexample (tier MID, no CPU scaling). -/
def cex5GPU : Component :=
  { name := "Radeon RX 6600", category := "GPU", price_BDT := 10,
    stock := "In Stock", performance_score := some 60 }

/-- Cheap CPU with socket AM4. -/
def cex5CPU : Component :=
  { name := "Ryzen 5 5600G", category := "CPU", price_BDT := 10,
    stock := "In Stock", specs := { socket := some "AM4" },
    performance_score := some 60 }

/-- Cheap compatible motherboard. -/
def cex5MB : Component :=
  { name := "B550 Mini", category := "MOTHERBOARD", price_BDT := 10,
    stock := "In Stock", specs := { chipset := some "B550" },
    performance_score := some 50 }

/-- Cheap DDR4 RAM. -/
def cex5RAM : Component :=
  { name := "DDR4 8GB Stick", category := "RAM", price_BDT := 10,
    stock := "In Stock", specs := { type := some "DDR4" },
    performance_score := some 50 }

/-- A case priced far above the 5 percent Case fraction of a 1000 budget. -/
def cex5Case : Component :=
  { name := "Big Tower", category := "CASE", price_BDT := 300,
    stock := "In Stock", performance_score := some 40 }

/-- Catalog components for the C5 counterexample (no Storage, no PSU). -/
def cex5Comps : List Component := [cex5GPU, cex5CPU, cex5MB, cex5RAM, cex5Case]

/-- Catalog for the C5 counterexample. -/
def cex5Catalog : Query → List Component := catalogOf cex5Comps

/-- The build the C5 counterexample run produces. -/
def cex5Build : BuildOut := extractBuild (build_gaming_pc cex5Catalog demoReqs)

/-- Counterexample to C5 as stated: with the gaming_budget table (Case
fraction `0.05`, i.e. percent entry 5) and budget 1000, the catalog honors
all price ceilings, the assembly succeeds and selects the 300-priced case,
yet `min(fractional Case budget, remaining at selection) = min(50, 960) = 50 < 300`:
the Case step ignores its allocation fraction. -/
theorem c5_counterexample :
    budget_allocation BuildPurpose.GAMING_BUDGET = some allocGB ∧
    CatalogPriceBound cex5Catalog ∧
    build_gaming_pc cex5Catalog demoReqs = Except.ok cex5Build ∧
    cex5Build.pcCase = some cex5Case ∧
    ¬ (cex5Case.price_BDT ≤
        min (catBudget demoReqs.budget allocGB.pcCase) (remAfterPSU cex5Build)) :=
  ⟨rfl, catalogOf_price cex5Comps, rfl, by decide, by decide⟩

/-- A build dict without a `value_score` key, for the C6 counterexample. -/
def cmp6Demo : CmpBuild :=
  { total_price := some 100, avg_performance_score := some 50,
    value_score := none, tag := "demo" }

/-- Counterexample to C6 as stated: `compare_builds` does not leave its input
builds unchanged — after the call the single input build has a `value_score`
key it did not have before (the source writes `build["value_score"] = ...`
into every input dict). -/
theorem c6_counterexample : (compare_builds [cmp6Demo]).builds ≠ [cmp6Demo] := by
  intro h
  have h1 : ((compare_builds [cmp6Demo]).builds.headI.value_score).isSome = true := rfl
  rw [h] at h1
  exact absurd h1 (by decide)

/-- Claim C6, amended: `compare_builds` preserves every field of every input
build except `value_score`, which it (over)writes on each build with
`(avg_performance_score default 50) / (total_price default 1) * 10000`; the
builds come back in input order.  The hypothesis excludes builds carrying a
`total_price` of 0: there the source's `(perf / price) * 10000` raises
`ZeroDivisionError` and no comparison is returned at all, a path the total
rational division of `cmpValueScore` cannot represent. -/
theorem c6_value_score_only_field_changed (builds : List CmpBuild)
    (hnz : ∀ x ∈ builds, x.total_price ≠ some 0) :
    List.Forall₂ (fun o n =>
      n.total_price = o.total_price ∧
      n.avg_performance_score = o.avg_performance_score ∧
      n.tag = o.tag ∧
      n.value_score = some (cmpValueScore o))
      builds (compare_builds builds).builds := by
  have key : ∀ (l : List CmpBuild),
      List.Forall₂ (fun o n =>
        n.total_price = o.total_price ∧
        n.avg_performance_score = o.avg_performance_score ∧
        n.tag = o.tag ∧
        n.value_score = some (cmpValueScore o)) l (l.map addValueScore) := by
    intro l
    induction l with
    | nil => exact List.Forall₂.nil
    | cons x xs ih => exact List.Forall₂.cons ⟨rfl, rfl, rfl, rfl⟩ ih
  cases builds with
  | nil => exact List.Forall₂.nil
  | cons b bs => exact key (b :: bs)

/-- Witness for the amended C6 at a one-build list with nonzero total price. -/
theorem c6_value_score_only_field_changed_witness :
    List.Forall₂ (fun o n =>
      n.total_price = o.total_price ∧
      n.avg_performance_score = o.avg_performance_score ∧
      n.tag = o.tag ∧
      n.value_score = some (cmpValueScore o))
      [cmp6Demo] (compare_builds [cmp6Demo]).builds :=
  c6_value_score_only_field_changed [cmp6Demo] (by decide)

/-- Claim C7: `compare_builds([])` does not fail and returns a comparison
whose `cheapest`, `best_performance` and `best_value` are all null. -/
theorem c7_compare_empty :
    compare_builds [] =
      { builds := [], best_value := none, best_performance := none, cheapest := none } := rfl

/-- Claim C9: for every category other than CPU and GPU the keyword tier
table is empty, so `get_component_tier` returns `"MID"` for every name. -/
theorem c9_other_categories_mid (name category : String)
    (h1 : category ≠ "CPU") (h2 : category ≠ "GPU") :
    get_component_tier name category = "MID" := by
  unfold get_component_tier performance_tiers
  rw [if_neg h1, if_neg h2]
  rfl

/-- Witness for C9 at a RAM component name. -/
theorem c9_other_categories_mid_witness :
    get_component_tier "Corsair Vengeance" "RAM" = "MID" :=
  c9_other_categories_mid "Corsair Vengeance" "RAM" (by decide) (by decide)

/-- Claim C10: a component without a `performance_score` is scored as 50 both
in the selector's value score (`valueScore`, the key of
`find_best_component`) and in the build summary's average
(`scoreOf`, summed by `mkGamingBuild`). -/
theorem c10_missing_score_defaults_fifty (c : Component) (budget : ℤ)
    (h : c.performance_score = none) :
    scoreOf c = 50 ∧
    valueScore budget c = valueScore budget { c with performance_score := some 50 } := by
  simp [scoreOf, valueScore, h]

/-- A catalog record lacking the `performance_score` key. -/
def c10Comp : Component :=
  { name := "Mystery GPU", category := "GPU", price_BDT := 100, stock := "In Stock" }

/-- Witness for C10 at a scoreless component and budget 200. -/
theorem c10_missing_score_defaults_fifty_witness :
    scoreOf c10Comp = 50 ∧
    valueScore 200 c10Comp = valueScore 200 { c10Comp with performance_score := some 50 } :=
  c10_missing_score_defaults_fifty c10Comp 200 rfl

/-- The actual total price of a build dict carrying one (`getD 0` is only a
formal default; the C8 hypotheses make the field present). -/
def priceVal (b : CmpBuild) : ℚ := b.total_price.getD 0

/-- The claim's value formula `(avg_performance_score / total_price) * 10000`. -/
def valRatio (b : CmpBuild) : ℚ := perfVal b / priceVal b * 10000

lemma priceKey_coe {x : CmpBuild} (hx : x.total_price.isSome) :
    priceKey x = ((priceVal x : ℚ) : WithTop ℚ) := by
  cases hcs : x.total_price with
  | none => rw [hcs] at hx; cases hx
  | some p => simp [priceKey, priceVal, hcs]

lemma isFirstMinBy_of_priceKey {l : List CmpBuild} {c : CmpBuild}
    (h : IsFirstMinBy priceKey l c)
    (hl : ∀ x ∈ l, x.total_price.isSome) :
    IsFirstMinBy priceVal l c := by
  obtain ⟨pre, post, heq, hle, hlt⟩ := h
  have hcl : c ∈ l := by
    rw [heq]; exact List.mem_append_right _ (List.mem_cons_self _ _)
  refine ⟨pre, post, heq, ?_, ?_⟩
  · intro x hx
    have h1 := hle x hx
    rw [priceKey_coe (hl c hcl), priceKey_coe (hl x hx)] at h1
    exact WithTop.coe_le_coe.mp h1
  · intro x hx
    have hxl : x ∈ l := by rw [heq]; exact List.mem_append_left _ hx
    have h1 := hlt x hx
    rw [priceKey_coe (hl c hcl), priceKey_coe (hl x hxl)] at h1
    exact WithTop.coe_lt_coe.mp h1

lemma isFirstMaxBy_congr {α β : Type} [LinearOrder β] {k1 k2 : α → β}
    {l : List α} {c : α}
    (h : IsFirstMaxBy k1 l c) (hk : ∀ x ∈ l, k1 x = k2 x) :
    IsFirstMaxBy k2 l c := by
  obtain ⟨pre, post, heq, hle, hlt⟩ := h
  have hcl : c ∈ l := by
    rw [heq]; exact List.mem_append_right _ (List.mem_cons_self _ _)
  refine ⟨pre, post, heq, ?_, ?_⟩
  · intro x hx
    rw [← hk x hx, ← hk c hcl]
    exact hle x hx
  · intro x hx
    have hxl : x ∈ l := by rw [heq]; exact List.mem_append_left _ hx
    rw [← hk x hxl, ← hk c hcl]
    exact hlt x hx

lemma mem_updated_of_compare {b : CmpBuild} {rest : List CmpBuild} {x : CmpBuild}
    (hx : x ∈ addValueScore b :: rest.map addValueScore) :
    ∃ y ∈ b :: rest, x = addValueScore y := by
  rcases List.mem_cons.mp hx with rfl | hx2
  · exact ⟨b, by simp, rfl⟩
  · obtain ⟨y, hy, rfl⟩ := List.mem_map.mp hx2
    exact ⟨y, by simp [hy], rfl⟩

/-- Claim C8: on a nonempty list of builds each carrying a positive
`total_price` and an `avg_performance_score`, `compare_builds` returns as
`cheapest` the first build of minimum total price, as `best_performance` the
first build of maximum average performance, and as `best_value` the first
build maximizing `(avg_performance_score / total_price) * 10000` — every tie
resolved in favor of the earlier build in input order (the returned builds
are the input builds, in order, with their `value_score` fields written). -/
theorem c8_compare_nonempty (b : CmpBuild) (rest : List CmpBuild)
    (hfields : ∀ x ∈ b :: rest, x.total_price.isSome ∧
      x.avg_performance_score.isSome ∧ 0 < x.total_price.getD 0) :
    (∃ c, (compare_builds (b :: rest)).cheapest = some c ∧
        IsFirstMinBy priceVal (compare_builds (b :: rest)).builds c) ∧
    (∃ p, (compare_builds (b :: rest)).best_performance = some p ∧
        IsFirstMaxBy perfVal (compare_builds (b :: rest)).builds p) ∧
    (∃ v, (compare_builds (b :: rest)).best_value = some v ∧
        IsFirstMaxBy valRatio (compare_builds (b :: rest)).builds v) := by
  have hup : ∀ x ∈ addValueScore b :: rest.map addValueScore,
      x.total_price.isSome := by
    intro x hx
    obtain ⟨y, hy, rfl⟩ := mem_updated_of_compare hx
    exact (hfields y hy).1
  have hkey : ∀ x ∈ addValueScore b :: rest.map addValueScore,
      valueKey x = valRatio x := by
    intro x hx
    obtain ⟨y, hy, rfl⟩ := mem_updated_of_compare hx
    obtain ⟨hts, has, -⟩ := hfields y hy
    cases hts2 : y.total_price with
    | none => rw [hts2] at hts; cases hts
    | some p =>
        cases has2 : y.avg_performance_score with
        | none => rw [has2] at has; cases has
        | some a =>
            simp [valueKey, addValueScore, cmpValueScore, valRatio, perfVal,
              priceVal, hts2, has2]
  refine ⟨⟨pyMinBy priceKey (addValueScore b) (rest.map addValueScore), rfl, ?_⟩,
          ⟨pyMaxBy perfVal (addValueScore b) (rest.map addValueScore), rfl, ?_⟩,
          ⟨pyMaxBy valueKey (addValueScore b) (rest.map addValueScore), rfl, ?_⟩⟩
  · exact isFirstMinBy_of_priceKey
      (pyMinBy_first priceKey (rest.map addValueScore) (addValueScore b)) hup
  · exact pyMaxBy_first perfVal (rest.map addValueScore) (addValueScore b)
  · exact isFirstMaxBy_congr
      (pyMaxBy_first valueKey (rest.map addValueScore) (addValueScore b)) hkey

/-- Scenario-D builds for the C8 witness. -/
def c8BuildA : CmpBuild :=
  { total_price := some 40000, avg_performance_score := some 60,
    value_score := none, tag := "A" }

/-- Scenario-D second build. -/
def c8BuildB : CmpBuild :=
  { total_price := some 70000, avg_performance_score := some 75,
    value_score := none, tag := "B" }

/-- Scenario-D third build. -/
def c8BuildC : CmpBuild :=
  { total_price := some 100000, avg_performance_score := some 78,
    value_score := none, tag := "C" }

/-- Witness for C8 at the spec's Scenario-D builds. -/
theorem c8_compare_nonempty_witness :
    (∃ c, (compare_builds [c8BuildA, c8BuildB, c8BuildC]).cheapest = some c ∧
        IsFirstMinBy priceVal (compare_builds [c8BuildA, c8BuildB, c8BuildC]).builds c) ∧
    (∃ p, (compare_builds [c8BuildA, c8BuildB, c8BuildC]).best_performance = some p ∧
        IsFirstMaxBy perfVal (compare_builds [c8BuildA, c8BuildB, c8BuildC]).builds p) ∧
    (∃ v, (compare_builds [c8BuildA, c8BuildB, c8BuildC]).best_value = some v ∧
        IsFirstMaxBy valRatio (compare_builds [c8BuildA, c8BuildB, c8BuildC]).builds v) :=
  c8_compare_nonempty c8BuildA [c8BuildB, c8BuildC] (by decide)
